import Mathlib

/-!
Verification of the clock-hand detection core of TellMeTheTime.

The Python source (`detection_files/hand_detection.py` and the orchestration
in `main.py`) is shallowly embedded below.  Pixel coordinates and distances
are modelled as real numbers; `np.hypot`, `np.arctan2`, `np.degrees`, the
Python float `%` operator and Python `int()` truncation are given explicit
real-valued definitions.  Stateless image-processing collaborators
(OpenCV calls) are modelled as oracles supplied through an environment
record, since only their success/failure shape reaches the orchestration
logic under verification.
-/

namespace Clock

noncomputable section

/-- `np.hypot x y`: Euclidean norm of the vector `(x, y)`. -/
def hypot (x y : ℝ) : ℝ := Real.sqrt (x ^ 2 + y ^ 2)

/-- `np.arctan2 y x`: the angle of the point `(x, y)`, in `(-π, π]`,
modelled as the complex argument of `x + y·i`. -/
def arctan2 (y x : ℝ) : ℝ := Complex.arg ⟨x, y⟩

/-- `np.degrees r`: radians to degrees. -/
def degrees (r : ℝ) : ℝ := r * (180 / Real.pi)

/-- Python float `x % y`: remainder with the sign of the divisor,
`x - y * floor (x / y)`. -/
def fmod (x y : ℝ) : ℝ := x - y * ⌊x / y⌋

/-- Python `int(x)`: truncation toward zero. -/
def pyint (x : ℝ) : ℤ := if 0 ≤ x then ⌊x⌋ else ⌈x⌉

/-- A detected line `(x1, y1, x2, y2)`, as produced by `detect_lines_hough`. -/
structure Segment where
  x1 : ℝ
  y1 : ℝ
  x2 : ℝ
  y2 : ℝ

/-- A clock-center point `(cx, cy)`. -/
abbrev Center := ℝ × ℝ

/-- The inner helper `get_line_angle` of `filter_lines_by_center`
(`hand_detection.py`, lines 26-37): angle of the endpoint farther from the
center, measured clockwise from 12 o'clock, via
`(np.degrees (np.arctan2 dx dy) + 360) % 360`. -/
def get_line_angle (center : Center) (line : Segment) : ℝ :=
  let cx := center.1
  let cy := center.2
  let dist1 := hypot (line.x1 - cx) (line.y1 - cy)
  let dist2 := hypot (line.x2 - cx) (line.y2 - cy)
  let d := if dist1 < dist2 then (line.x2 - cx, cy - line.y2)
           else (line.x1 - cx, cy - line.y1)
  fmod (degrees (arctan2 d.1 d.2) + 360) 360

/-- `calculate_line_angle` (`hand_detection.py`, lines 80-112): pick the
endpoint farther from the center, then return
`(np.degrees (np.arctan2 (x_end - cx) (cy - y_end)) + 360) % 360`. -/
def calculate_line_angle (line : Segment) (center : Center) : ℝ :=
  let cx := center.1
  let cy := center.2
  let dist1 := hypot (line.x1 - cx) (line.y1 - cy)
  let dist2 := hypot (line.x2 - cx) (line.y2 - cy)
  let e := if dist1 < dist2 then (line.x2, line.y2) else (line.x1, line.y1)
  fmod (degrees (arctan2 (e.1 - cx) (cy - e.2)) + 360) 360

/-- The wrapped angular difference `min |a - b| (360 - |a - b|)` computed at
`hand_detection.py`, lines 56-57. -/
def angle_diff (a b : ℝ) : ℝ := min |a - b| (360 - |a - b|)

/-- The minimum over both endpoint pairings of the average
endpoint-to-endpoint distance between two lines
(`hand_detection.py`, lines 61-65). -/
def min_avg_dist (l ch : Segment) : ℝ :=
  min ((hypot (l.x1 - ch.x1) (l.y1 - ch.y1) + hypot (l.x2 - ch.x2) (l.y2 - ch.y2)) / 2)
      ((hypot (l.x1 - ch.x2) (l.y1 - ch.y2) + hypot (l.x2 - ch.x1) (l.y2 - ch.y1)) / 2)

/-- The per-pair "too close" test of `hand_detection.py`, line 68:
similar angles OR spatially close. -/
def too_close_pair (center : Center) (min_angle_difference max_distance_from_center : ℝ)
    (line chosen_line : Segment) : Prop :=
  angle_diff (get_line_angle center line) (get_line_angle center chosen_line)
      < min_angle_difference ∨
    min_avg_dist line chosen_line < max_distance_from_center

/-- The inner loop of `hand_detection.py`, lines 48-70: the candidate is too
close to some already chosen line. -/
def too_close (center : Center) (min_angle_difference max_distance_from_center : ℝ)
    (filtered_lines : List Segment) (line : Segment) : Prop :=
  ∃ chosen_line ∈ filtered_lines,
    too_close_pair center min_angle_difference max_distance_from_center line chosen_line

/-- The admission test of `hand_detection.py`, line 45: at least one endpoint
lies strictly within `max_distance_from_center` of the center. -/
def near_center (center : Center) (max_distance_from_center : ℝ) (line : Segment) : Prop :=
  hypot (line.x1 - center.1) (line.y1 - center.2) < max_distance_from_center ∨
    hypot (line.x2 - center.1) (line.y2 - center.2) < max_distance_from_center

instance too_close_pair.instDecidable (center : Center) (mad mdc : ℝ) (l ch : Segment) :
    Decidable (too_close_pair center mad mdc l ch) := by
  unfold too_close_pair; infer_instance

instance too_close.instDecidable (center : Center) (mad mdc : ℝ) (fl : List Segment)
    (l : Segment) : Decidable (too_close center mad mdc fl l) := by
  unfold too_close; infer_instance

instance near_center.instDecidable (center : Center) (mdc : ℝ) (l : Segment) :
    Decidable (near_center center mdc l) := by
  unfold near_center; infer_instance

/-- One iteration body of the loop in `filter_lines_by_center`
(`hand_detection.py`, lines 40-73): append the line to the accumulator iff it
passes near the center and is not too close to an already chosen line. -/
def process_line (center : Center) (max_distance_from_center min_angle_difference : ℝ)
    (filtered_lines : List Segment) (line : Segment) : List Segment :=
  if near_center center max_distance_from_center line then
    if too_close center min_angle_difference max_distance_from_center filtered_lines line then
      filtered_lines
    else
      filtered_lines ++ [line]
  else
    filtered_lines

/-- The loop of `filter_lines_by_center` with its early exit
(`hand_detection.py`, lines 39-76): after each iteration, stop as soon as two
lines have been collected. -/
def filter_go (center : Center) (max_distance_from_center min_angle_difference : ℝ) :
    List Segment → List Segment → List Segment
  | filtered_lines, [] => filtered_lines
  | filtered_lines, line :: rest =>
    let acc := process_line center max_distance_from_center min_angle_difference
        filtered_lines line
    if 2 ≤ acc.length then acc
    else filter_go center max_distance_from_center min_angle_difference acc rest

/-- `filter_lines_by_center` (`hand_detection.py`, lines 9-77).  The Python
defaults are `max_distance_from_center = 30`, `min_angle_difference = 15`. -/
def filter_lines_by_center (lines : List Segment) (center : Center)
    (max_distance_from_center min_angle_difference : ℝ) : List Segment :=
  filter_go center max_distance_from_center min_angle_difference [] lines

/-- The length `np.hypot (x2 - x1) (y2 - y1)` of one line
(`hand_detection.py`, line 129). -/
def line_length (line : Segment) : ℝ := hypot (line.x2 - line.x1) (line.y2 - line.y1)

/-- `calculate_lines_length` (`hand_detection.py`, lines 115-131): pair each
line with its Euclidean length. -/
def calculate_lines_length (lines : List Segment) : List (Segment × ℝ) :=
  lines.map fun line => (line, line_length line)

/-- `identify_hour_and_minute_hands` (`hand_detection.py`, lines 134-164).
`markers_lengths.sort(key, reverse=True)` is a stable descending sort by
length, modelled by the stable `List.insertionSort` with the relation
"keep `p` before `q` iff `q`'s length is at most `p`'s".  The Python
return value `(None, None)` is modelled as `none`, a pair as `some`. -/
def identify_hour_and_minute_hands (lines : List Segment) (center : Center) :
    Option (Segment × Segment) :=
  let filtered_lines := filter_lines_by_center lines center 30 15
  if filtered_lines.isEmpty then none
  else
    match List.insertionSort (fun p q : Segment × ℝ => q.2 ≤ p.2)
        (calculate_lines_length filtered_lines) with
    | [] => none
    | [m] => some (m.1, m.1)
    | m0 :: m1 :: _ => some (m1.1, m0.1)

/-- `read_time_from_hands` (`hand_detection.py`, lines 166-186), up to the
final string formatting: the `(hour, minute)` pair
`(int (hour_angle / 360 * 12) % 12, int (minute_angle / 360 * 60) % 60)`.
The source renders this pair as the string `f"{hour:02}:{minute:02}"`,
modelled separately by `timeFormat`. -/
def read_time_from_hands (hour_hand_line minute_hand_line : Segment) (center : Center) :
    ℤ × ℤ :=
  let hour_angle := calculate_line_angle hour_hand_line center
  let minute_angle := calculate_line_angle minute_hand_line center
  (pyint (hour_angle / 360 * 12) % 12, pyint (minute_angle / 360 * 60) % 60)

/-- Python `f"{n:02}"`: pad a one-digit nonnegative integer with a leading 0. -/
def pad2 (n : ℤ) : String := if 0 ≤ n ∧ n < 10 then "0" ++ toString n else toString n

/-- The string `f"{hour:02}:{minute:02}"` returned by `read_time_from_hands`. -/
def timeFormat (t : ℤ × ℤ) : String := pad2 t.1 ++ ":" ++ pad2 t.2

/-! ### The pipeline of `main.py` -/

/-- The six pipeline steps of `read_clock_time` (`main.py`, lines 30-171),
plus the final time-calculation step. -/
inductive Stage where
  | preprocessing
  | edgeDetection
  | faceDetection
  | centerRefinement
  | lineDetection
  | handIdentification
  | timeCalculation
deriving DecidableEq

/-- The outward behaviour of the image-processing collaborators called by
`read_clock_time`, over an abstract image type `Img`.  Only their
success/failure shape reaches the orchestration logic:
`preprocessed` is the triple `(original, grayscale, bw)` after
`preprocess_image` + `apply_gaussian_blur` (`Except.error` models the
Python exception raised by `preprocess_image` when `cv2.imread` fails);
`canny`, `detectClockCircle`, `detectCenterBlob` and `detectLinesHough`
model `cv2.Canny`, `detect_clock_circle`, `detect_clock_center_blob`
(which also returns a visualization image) and `detect_lines_hough`. -/
structure PipelineEnv (Img : Type) where
  preprocessed : Except String (Img × Option Img × Option Img)
  canny : Img → Option Img
  detectClockCircle : Img → Option ((ℝ × ℝ) × ℝ)
  detectCenterBlob : Img → ((ℝ × ℝ) × ℝ) → Option ((ℝ × ℝ × ℝ) × Img)
  detectLinesHough : Img → Option (List Segment)

/-- `read_clock_time` (`main.py`, lines 30-171): run the six stages in order,
returning Python's `None` (`Except.ok none`) at the first null/empty
collaborator result, the time string on success, and `Except.error` when an
exception from `preprocess_image` propagates.  The second component records
the stages entered, in order (file saving and logging side effects are
dropped).  The center handed to hand identification is truncated to
integers, as in `clock_center = (int(clock[0]), int(clock[1]))`. -/
def read_clock_time {Img : Type} (env : PipelineEnv Img) :
    Except String (Option String) × List Stage :=
  match env.preprocessed with
  | .error e => (.error e, [Stage.preprocessing])
  | .ok (_original, grayOpt, bwOpt) =>
    match grayOpt, bwOpt with
    | some grayscale_image, some bw_image =>
      match env.canny bw_image with
      | none => (.ok none, [Stage.preprocessing, Stage.edgeDetection])
      | some edges =>
        match env.detectClockCircle grayscale_image with
        | none => (.ok none,
            [Stage.preprocessing, Stage.edgeDetection, Stage.faceDetection])
        | some clock =>
          match env.detectCenterBlob grayscale_image clock with
          | none => (.ok none,
              [Stage.preprocessing, Stage.edgeDetection, Stage.faceDetection,
                Stage.centerRefinement])
          | some (clockRefined, _blob_image) =>
            let clock_center : Center :=
              ((pyint clockRefined.1 : ℝ), (pyint clockRefined.2.1 : ℝ))
            match env.detectLinesHough edges with
            | none => (.ok none,
                [Stage.preprocessing, Stage.edgeDetection, Stage.faceDetection,
                  Stage.centerRefinement, Stage.lineDetection])
            | some lines =>
              if lines.isEmpty then
                (.ok none,
                  [Stage.preprocessing, Stage.edgeDetection, Stage.faceDetection,
                    Stage.centerRefinement, Stage.lineDetection])
              else
                match identify_hour_and_minute_hands lines clock_center with
                | none => (.ok none,
                    [Stage.preprocessing, Stage.edgeDetection, Stage.faceDetection,
                      Stage.centerRefinement, Stage.lineDetection,
                      Stage.handIdentification])
                | some (hour_hand, minute_hand) =>
                  let estimated_time :=
                    timeFormat (read_time_from_hands hour_hand minute_hand clock_center)
                  if estimated_time = "" then
                    (.ok none,
                      [Stage.preprocessing, Stage.edgeDetection, Stage.faceDetection,
                        Stage.centerRefinement, Stage.lineDetection,
                        Stage.handIdentification, Stage.timeCalculation])
                  else
                    (.ok (some estimated_time),
                      [Stage.preprocessing, Stage.edgeDetection, Stage.faceDetection,
                        Stage.centerRefinement, Stage.lineDetection,
                        Stage.handIdentification, Stage.timeCalculation])
    | _, _ => (.ok none, [Stage.preprocessing])

/-! ### Concrete data used by witnesses and counterexamples -/

/-- The segment `(x2, y2, x1, y1)` obtained by swapping the endpoints of
`(x1, y1, x2, y2)`. -/
def swapSeg (l : Segment) : Segment := ⟨l.x2, l.y2, l.x1, l.y1⟩

/-- A long candidate pointing straight up from the center: length 100,
angle 0. -/
def seg1 : Segment := ⟨0, 0, 0, -100⟩

/-- A shorter candidate pointing right from the center: length 50,
angle 90. -/
def seg2 : Segment := ⟨0, 0, 50, 0⟩

/-- A near-duplicate of `seg1`: points straight up, length 50, angle 0. -/
def seg3 : Segment := ⟨0, 0, 0, -50⟩

/-- An environment in which loading the image fails: `cv2.imread` returns
`None` and `preprocess_image` raises `FileNotFoundError`. -/
def envCrash : PipelineEnv Nat :=
  { preprocessed := .error "FileNotFoundError: Image not found at clock_2.jpg"
    canny := fun _ => none
    detectClockCircle := fun _ => none
    detectCenterBlob := fun _ _ => none
    detectLinesHough := fun _ => none }

/-- An environment in which preprocessing succeeds but edge detection
returns a null result. -/
def envEdgeFail : PipelineEnv Nat :=
  { preprocessed := .ok (0, some 0, some 0)
    canny := fun _ => none
    detectClockCircle := fun _ => none
    detectCenterBlob := fun _ _ => none
    detectLinesHough := fun _ => none }

/-- An environment in which preprocessing and edge detection succeed but
face detection returns a null result. -/
def envFaceFail : PipelineEnv Nat :=
  { preprocessed := .ok (0, some 0, some 0)
    canny := fun _ => some 0
    detectClockCircle := fun _ => none
    detectCenterBlob := fun _ _ => none
    detectLinesHough := fun _ => none }

/-! ### Basic lemmas about the numeric primitives -/

theorem fmod_nonneg (x : ℝ) {y : ℝ} (hy : 0 < y) : 0 ≤ fmod x y := by
  have hrw : fmod x y = y * Int.fract (x / y) := by
    unfold fmod Int.fract
    field_simp
  rw [hrw]
  exact mul_nonneg hy.le (Int.fract_nonneg _)

theorem fmod_lt (x : ℝ) {y : ℝ} (hy : 0 < y) : fmod x y < y := by
  have hrw : fmod x y = y * Int.fract (x / y) := by
    unfold fmod Int.fract
    field_simp
  rw [hrw]
  calc y * Int.fract (x / y) < y * 1 :=
        (mul_lt_mul_left hy).mpr (Int.fract_lt_one _)
    _ = y := mul_one y

theorem fmod_eval (x y : ℝ) (k : ℤ) (hy : 0 < y) (h1 : y * k ≤ x)
    (h2 : x < y * (k + 1)) : fmod x y = x - y * k := by
  unfold fmod
  have hfl : ⌊x / y⌋ = k := by
    rw [Int.floor_eq_iff]
    constructor
    · rw [le_div_iff₀ hy]
      linarith [h1]
    · rw [div_lt_iff₀ hy]
      linarith [h2]
  rw [hfl]

theorem hypot_nonneg (x y : ℝ) : 0 ≤ hypot x y := Real.sqrt_nonneg _

theorem hypot_eval (x y r : ℝ) (hr : 0 ≤ r) (h : x ^ 2 + y ^ 2 = r ^ 2) :
    hypot x y = r := by
  rw [hypot, h, Real.sqrt_sq hr]

theorem hypot_neg_neg (x y : ℝ) : hypot (-x) (-y) = hypot x y := by
  unfold hypot
  ring_nf

theorem pyint_of_nonneg {x : ℝ} (hx : 0 ≤ x) : pyint x = ⌊x⌋ := if_pos hx

theorem arctan2_zero_pos {x : ℝ} (hx : 0 < x) : arctan2 0 x = 0 := by
  have h : (⟨x, 0⟩ : ℂ) = (x : ℂ) := by
    apply Complex.ext <;> simp
  rw [arctan2, h]
  exact Complex.arg_ofReal_of_nonneg hx.le

theorem arctan2_zero_neg {x : ℝ} (hx : x < 0) : arctan2 0 x = Real.pi := by
  have h : (⟨x, 0⟩ : ℂ) = (x : ℂ) := by
    apply Complex.ext <;> simp
  rw [arctan2, h]
  exact Complex.arg_ofReal_of_neg hx

theorem arctan2_pos_zero {y : ℝ} (hy : 0 < y) : arctan2 y 0 = Real.pi / 2 := by
  have h : (⟨0, y⟩ : ℂ) = (y : ℂ) * Complex.I := by
    apply Complex.ext <;> simp
  rw [arctan2, h, Complex.arg_real_mul _ hy, Complex.arg_I]

theorem arctan2_neg_zero {y : ℝ} (hy : y < 0) : arctan2 y 0 = -(Real.pi / 2) := by
  have h : (⟨0, y⟩ : ℂ) = ((-y : ℝ) : ℂ) * (-Complex.I) := by
    apply Complex.ext <;> simp
  rw [arctan2, h, Complex.arg_real_mul _ (by linarith : (0:ℝ) < -y), Complex.arg_neg_I]

theorem degrees_zero : degrees 0 = 0 := by
  unfold degrees
  ring

theorem degrees_pi_div_two : degrees (Real.pi / 2) = 90 := by
  unfold degrees
  field_simp
  ring

theorem degrees_pi : degrees Real.pi = 180 := by
  unfold degrees
  field_simp

theorem degrees_neg_pi_div_two : degrees (-(Real.pi / 2)) = -90 := by
  unfold degrees
  field_simp
  ring

/-! ### The two angle functions agree, and their range -/

theorem get_line_angle_eq (c : Center) (l : Segment) :
    get_line_angle c l = calculate_line_angle l c := by
  unfold get_line_angle calculate_line_angle
  by_cases h : hypot (l.x1 - c.1) (l.y1 - c.2) < hypot (l.x2 - c.1) (l.y2 - c.2) <;>
    simp [h]

theorem calculate_line_angle_far (l : Segment) (c : Center)
    (h : hypot (l.x1 - c.1) (l.y1 - c.2) < hypot (l.x2 - c.1) (l.y2 - c.2)) :
    calculate_line_angle l c =
      fmod (degrees (arctan2 (l.x2 - c.1) (c.2 - l.y2)) + 360) 360 := by
  simp [calculate_line_angle, h]

theorem calculate_line_angle_near (l : Segment) (c : Center)
    (h : ¬ hypot (l.x1 - c.1) (l.y1 - c.2) < hypot (l.x2 - c.1) (l.y2 - c.2)) :
    calculate_line_angle l c =
      fmod (degrees (arctan2 (l.x1 - c.1) (c.2 - l.y1)) + 360) 360 := by
  simp [calculate_line_angle, h]

theorem calculate_line_angle_nonneg (l : Segment) (c : Center) :
    0 ≤ calculate_line_angle l c := by
  by_cases h : hypot (l.x1 - c.1) (l.y1 - c.2) < hypot (l.x2 - c.1) (l.y2 - c.2)
  · rw [calculate_line_angle_far l c h]
    exact fmod_nonneg _ (by norm_num)
  · rw [calculate_line_angle_near l c h]
    exact fmod_nonneg _ (by norm_num)

theorem calculate_line_angle_lt_360 (l : Segment) (c : Center) :
    calculate_line_angle l c < 360 := by
  by_cases h : hypot (l.x1 - c.1) (l.y1 - c.2) < hypot (l.x2 - c.1) (l.y2 - c.2)
  · rw [calculate_line_angle_far l c h]
    exact fmod_lt _ (by norm_num)
  · rw [calculate_line_angle_near l c h]
    exact fmod_lt _ (by norm_num)

/-! ### Evaluating the wrapped angle in the four axis directions -/

theorem angle_wrap_up {x : ℝ} (hx : 0 < x) :
    fmod (degrees (arctan2 0 x) + 360) 360 = 0 := by
  rw [arctan2_zero_pos hx, degrees_zero,
    fmod_eval (0 + 360) 360 1 (by norm_num) (by norm_num) (by norm_num)]
  norm_num

theorem angle_wrap_right {y : ℝ} (hy : 0 < y) :
    fmod (degrees (arctan2 y 0) + 360) 360 = 90 := by
  rw [arctan2_pos_zero hy, degrees_pi_div_two,
    fmod_eval (90 + 360) 360 1 (by norm_num) (by norm_num) (by norm_num)]
  norm_num

theorem angle_wrap_down {x : ℝ} (hx : x < 0) :
    fmod (degrees (arctan2 0 x) + 360) 360 = 180 := by
  rw [arctan2_zero_neg hx, degrees_pi,
    fmod_eval (180 + 360) 360 1 (by norm_num) (by norm_num) (by norm_num)]
  norm_num

theorem angle_wrap_left {y : ℝ} (hy : y < 0) :
    fmod (degrees (arctan2 y 0) + 360) 360 = 270 := by
  rw [arctan2_neg_zero hy, degrees_neg_pi_div_two,
    fmod_eval (-90 + 360) 360 0 (by norm_num) (by norm_num) (by norm_num)]
  norm_num

/-! ### Concrete angle evaluations used by the witnesses -/

theorem angle_eval_90 : calculate_line_angle ⟨0, 0, 1, 0⟩ (0, 0) = 90 := by
  rw [calculate_line_angle_far ⟨0, 0, 1, 0⟩ (0, 0)
      (by
        rw [show hypot ((Segment.mk 0 0 1 0).x1 - ((0:ℝ), (0:ℝ)).1)
              ((Segment.mk 0 0 1 0).y1 - ((0:ℝ), (0:ℝ)).2) = 0 from
            hypot_eval _ _ 0 le_rfl (by norm_num),
          show hypot ((Segment.mk 0 0 1 0).x2 - ((0:ℝ), (0:ℝ)).1)
              ((Segment.mk 0 0 1 0).y2 - ((0:ℝ), (0:ℝ)).2) = 1 from
            hypot_eval _ _ 1 (by norm_num) (by norm_num)]
        norm_num)]
  show fmod (degrees (arctan2 (1 - 0) (0 - 0)) + 360) 360 = 90
  rw [show (1:ℝ) - 0 = 1 by norm_num, show (0:ℝ) - 0 = 0 by norm_num]
  exact angle_wrap_right one_pos

theorem angle_eval_180 : calculate_line_angle ⟨0, 0, 0, 1⟩ (0, 0) = 180 := by
  rw [calculate_line_angle_far ⟨0, 0, 0, 1⟩ (0, 0)
      (by
        rw [show hypot ((Segment.mk 0 0 0 1).x1 - ((0:ℝ), (0:ℝ)).1)
              ((Segment.mk 0 0 0 1).y1 - ((0:ℝ), (0:ℝ)).2) = 0 from
            hypot_eval _ _ 0 le_rfl (by norm_num),
          show hypot ((Segment.mk 0 0 0 1).x2 - ((0:ℝ), (0:ℝ)).1)
              ((Segment.mk 0 0 0 1).y2 - ((0:ℝ), (0:ℝ)).2) = 1 from
            hypot_eval _ _ 1 (by norm_num) (by norm_num)]
        norm_num)]
  show fmod (degrees (arctan2 (0 - 0) (0 - 1)) + 360) 360 = 180
  rw [show (0:ℝ) - 0 = 0 by norm_num]
  exact angle_wrap_down (by norm_num : (0:ℝ) - 1 < 0)

/-! ### Claim theorems -/

/-- C2: for every segment and center, `calculate_line_angle` equals
`(degrees (atan2 (px - cx, cy - py)) + 360) mod 360` where `(px, py)` is an
endpoint of maximal distance from the center, and the value lies in
`[0, 360)`. -/
theorem c2_calculate_line_angle_spec (l : Segment) (c : Center) :
    ∃ p : ℝ × ℝ,
      (p = (l.x1, l.y1) ∨ p = (l.x2, l.y2)) ∧
      hypot (l.x1 - c.1) (l.y1 - c.2) ≤ hypot (p.1 - c.1) (p.2 - c.2) ∧
      hypot (l.x2 - c.1) (l.y2 - c.2) ≤ hypot (p.1 - c.1) (p.2 - c.2) ∧
      calculate_line_angle l c =
        fmod (degrees (arctan2 (p.1 - c.1) (c.2 - p.2)) + 360) 360 ∧
      0 ≤ calculate_line_angle l c ∧ calculate_line_angle l c < 360 := by
  by_cases h : hypot (l.x1 - c.1) (l.y1 - c.2) < hypot (l.x2 - c.1) (l.y2 - c.2)
  · exact ⟨(l.x2, l.y2), Or.inr rfl, h.le, le_refl _,
      calculate_line_angle_far l c h,
      calculate_line_angle_nonneg l c, calculate_line_angle_lt_360 l c⟩
  · exact ⟨(l.x1, l.y1), Or.inl rfl, le_refl _, le_of_not_lt h,
      calculate_line_angle_near l c h,
      calculate_line_angle_nonneg l c, calculate_line_angle_lt_360 l c⟩

/-- C1: `read_time_from_hands` is total and decodes
`hour = floor (hourAngle / 360 * 12) mod 12` and
`minute = floor (minuteAngle / 360 * 60) mod 60` from the two hand angles;
in particular an hour-hand angle of 90 gives hour 3 and a minute-hand angle
of 180 gives minute 30. -/
theorem c1_read_time_from_hands_decodes (hh mh : Segment) (c : Center) :
    read_time_from_hands hh mh c =
      (⌊calculate_line_angle hh c / 360 * 12⌋ % 12,
        ⌊calculate_line_angle mh c / 360 * 60⌋ % 60) ∧
    (calculate_line_angle hh c = 90 → (read_time_from_hands hh mh c).1 = 3) ∧
    (calculate_line_angle mh c = 180 → (read_time_from_hands hh mh c).2 = 30) := by
  have ha := calculate_line_angle_nonneg hh c
  have hm := calculate_line_angle_nonneg mh c
  have heq : read_time_from_hands hh mh c =
      (⌊calculate_line_angle hh c / 360 * 12⌋ % 12,
        ⌊calculate_line_angle mh c / 360 * 60⌋ % 60) := by
    show (pyint (calculate_line_angle hh c / 360 * 12) % 12,
        pyint (calculate_line_angle mh c / 360 * 60) % 60) = _
    rw [pyint_of_nonneg (mul_nonneg (div_nonneg ha (by norm_num)) (by norm_num)),
      pyint_of_nonneg (mul_nonneg (div_nonneg hm (by norm_num)) (by norm_num))]
  refine ⟨heq, fun h90 => ?_, fun h180 => ?_⟩
  · rw [heq]
    show ⌊calculate_line_angle hh c / 360 * 12⌋ % 12 = 3
    rw [h90, show (90:ℝ) / 360 * 12 = ((3:ℤ) : ℝ) by norm_num, Int.floor_intCast]
    decide
  · rw [heq]
    show ⌊calculate_line_angle mh c / 360 * 60⌋ % 60 = 30
    rw [h180, show (180:ℝ) / 360 * 60 = ((30:ℤ) : ℝ) by norm_num, Int.floor_intCast]
    decide

/-- C1 witness: with the hour hand pointing right (angle 90) and the minute
hand pointing down (angle 180), the decoded time is 03:30. -/
theorem c1_witness :
    calculate_line_angle ⟨0, 0, 1, 0⟩ ((0:ℝ), (0:ℝ)) = 90 ∧
    calculate_line_angle ⟨0, 0, 0, 1⟩ ((0:ℝ), (0:ℝ)) = 180 ∧
    (read_time_from_hands ⟨0, 0, 1, 0⟩ ⟨0, 0, 0, 1⟩ ((0:ℝ), (0:ℝ))).1 = 3 ∧
    (read_time_from_hands ⟨0, 0, 1, 0⟩ ⟨0, 0, 0, 1⟩ ((0:ℝ), (0:ℝ))).2 = 30 :=
  ⟨angle_eval_90, angle_eval_180,
    (c1_read_time_from_hands_decodes ⟨0, 0, 1, 0⟩ ⟨0, 0, 0, 1⟩ ((0:ℝ), (0:ℝ))).2.1
      angle_eval_90,
    (c1_read_time_from_hands_decodes ⟨0, 0, 1, 0⟩ ⟨0, 0, 0, 1⟩ ((0:ℝ), (0:ℝ))).2.2
      angle_eval_180⟩

/-! ### Claim C9: endpoint-order invariance -/

/-- C9 counterexample: for the segment `(1, 0, -1, 0)` around center
`(0, 0)` both endpoints are equidistant from the center, the tie-break picks
endpoint 1 either way, and swapping the endpoints changes the computed angle
from 90 to 270.  So swapping endpoints does not always leave
`calculate_line_angle` unchanged. -/
theorem c9_counterexample :
    calculate_line_angle ⟨1, 0, -1, 0⟩ ((0:ℝ), (0:ℝ)) = 90 ∧
    calculate_line_angle (swapSeg ⟨1, 0, -1, 0⟩) ((0:ℝ), (0:ℝ)) = 270 ∧
    calculate_line_angle (swapSeg ⟨1, 0, -1, 0⟩) ((0:ℝ), (0:ℝ)) ≠
      calculate_line_angle ⟨1, 0, -1, 0⟩ ((0:ℝ), (0:ℝ)) := by
  have h1 : calculate_line_angle ⟨1, 0, -1, 0⟩ ((0:ℝ), (0:ℝ)) = 90 := by
    rw [calculate_line_angle_near ⟨1, 0, -1, 0⟩ ((0:ℝ), (0:ℝ))
        (by
          rw [show hypot ((Segment.mk 1 0 (-1) 0).x1 - ((0:ℝ), (0:ℝ)).1)
                ((Segment.mk 1 0 (-1) 0).y1 - ((0:ℝ), (0:ℝ)).2) = 1 from
              hypot_eval _ _ 1 (by norm_num) (by norm_num),
            show hypot ((Segment.mk 1 0 (-1) 0).x2 - ((0:ℝ), (0:ℝ)).1)
                ((Segment.mk 1 0 (-1) 0).y2 - ((0:ℝ), (0:ℝ)).2) = 1 from
              hypot_eval _ _ 1 (by norm_num) (by norm_num)]
          norm_num)]
    show fmod (degrees (arctan2 (1 - 0) (0 - 0)) + 360) 360 = 90
    rw [show (1:ℝ) - 0 = 1 by norm_num, show (0:ℝ) - 0 = 0 by norm_num]
    exact angle_wrap_right one_pos
  have h2 : calculate_line_angle (swapSeg ⟨1, 0, -1, 0⟩) ((0:ℝ), (0:ℝ)) = 270 := by
    rw [calculate_line_angle_near (swapSeg ⟨1, 0, -1, 0⟩) ((0:ℝ), (0:ℝ))
        (by
          rw [show hypot ((swapSeg ⟨1, 0, -1, 0⟩).x1 - ((0:ℝ), (0:ℝ)).1)
                ((swapSeg ⟨1, 0, -1, 0⟩).y1 - ((0:ℝ), (0:ℝ)).2) = 1 from
              hypot_eval _ _ 1 (by norm_num) (by norm_num [swapSeg]),
            show hypot ((swapSeg ⟨1, 0, -1, 0⟩).x2 - ((0:ℝ), (0:ℝ)).1)
                ((swapSeg ⟨1, 0, -1, 0⟩).y2 - ((0:ℝ), (0:ℝ)).2) = 1 from
              hypot_eval _ _ 1 (by norm_num) (by norm_num [swapSeg])]
          norm_num)]
    show fmod (degrees (arctan2 (-1 - 0) (0 - 0)) + 360) 360 = 270
    rw [show (-1:ℝ) - 0 = -1 by norm_num, show (0:ℝ) - 0 = 0 by norm_num]
    exact angle_wrap_left (by norm_num : (-1:ℝ) < 0)
  exact ⟨h1, h2, by rw [h1, h2]; norm_num⟩

/-- C9 as amended: swapping endpoints never changes the computed length
(`calculate_lines_length`), and it leaves `calculate_line_angle` unchanged
whenever the two endpoints are at distinct distances from the center; only
in the equidistant tie case may the angle change. -/
theorem c9_swap_invariance (l : Segment) (c : Center) :
    line_length (swapSeg l) = line_length l ∧
    (calculate_lines_length [swapSeg l]).map Prod.snd =
      (calculate_lines_length [l]).map Prod.snd ∧
    (hypot (l.x1 - c.1) (l.y1 - c.2) ≠ hypot (l.x2 - c.1) (l.y2 - c.2) →
      calculate_line_angle (swapSeg l) c = calculate_line_angle l c) := by
  have hlen : line_length (swapSeg l) = line_length l := by
    show hypot (l.x1 - l.x2) (l.y1 - l.y2) = hypot (l.x2 - l.x1) (l.y2 - l.y1)
    rw [← neg_sub l.x2 l.x1, ← neg_sub l.y2 l.y1, hypot_neg_neg]
  refine ⟨hlen, by simp [calculate_lines_length, hlen], fun hne => ?_⟩
  by_cases h : hypot (l.x1 - c.1) (l.y1 - c.2) < hypot (l.x2 - c.1) (l.y2 - c.2)
  · rw [calculate_line_angle_far l c h,
      calculate_line_angle_near (swapSeg l) c (lt_asymm h)]
    rfl
  · have hlt : hypot (l.x2 - c.1) (l.y2 - c.2) < hypot (l.x1 - c.1) (l.y1 - c.2) :=
      lt_of_le_of_ne (le_of_not_lt h) hne.symm
    rw [calculate_line_angle_near l c h,
      calculate_line_angle_far (swapSeg l) c hlt]
    rfl

/-- C9 witness: for the segment `(0, 0, 1, 0)` around center `(0, 0)` the
endpoint distances 0 and 1 differ, and swapping the endpoints changes
neither the length nor the angle. -/
theorem c9_witness :
    hypot ((Segment.mk 0 0 1 0).x1 - ((0:ℝ), (0:ℝ)).1)
        ((Segment.mk 0 0 1 0).y1 - ((0:ℝ), (0:ℝ)).2) ≠
      hypot ((Segment.mk 0 0 1 0).x2 - ((0:ℝ), (0:ℝ)).1)
        ((Segment.mk 0 0 1 0).y2 - ((0:ℝ), (0:ℝ)).2) ∧
    line_length (swapSeg ⟨0, 0, 1, 0⟩) = line_length ⟨0, 0, 1, 0⟩ ∧
    calculate_line_angle (swapSeg ⟨0, 0, 1, 0⟩) ((0:ℝ), (0:ℝ)) =
      calculate_line_angle ⟨0, 0, 1, 0⟩ ((0:ℝ), (0:ℝ)) := by
  have hne : hypot ((Segment.mk 0 0 1 0).x1 - ((0:ℝ), (0:ℝ)).1)
        ((Segment.mk 0 0 1 0).y1 - ((0:ℝ), (0:ℝ)).2) ≠
      hypot ((Segment.mk 0 0 1 0).x2 - ((0:ℝ), (0:ℝ)).1)
        ((Segment.mk 0 0 1 0).y2 - ((0:ℝ), (0:ℝ)).2) := by
    rw [show hypot ((Segment.mk 0 0 1 0).x1 - ((0:ℝ), (0:ℝ)).1)
          ((Segment.mk 0 0 1 0).y1 - ((0:ℝ), (0:ℝ)).2) = 0 from
        hypot_eval _ _ 0 le_rfl (by norm_num),
      show hypot ((Segment.mk 0 0 1 0).x2 - ((0:ℝ), (0:ℝ)).1)
          ((Segment.mk 0 0 1 0).y2 - ((0:ℝ), (0:ℝ)).2) = 1 from
        hypot_eval _ _ 1 (by norm_num) (by norm_num)]
    norm_num
  exact ⟨hne, (c9_swap_invariance ⟨0, 0, 1, 0⟩ ((0:ℝ), (0:ℝ))).1,
    (c9_swap_invariance ⟨0, 0, 1, 0⟩ ((0:ℝ), (0:ℝ))).2.2 hne⟩

/-! ### Structural lemmas about the selection loop -/

theorem filter_go_nil (c : Center) (mdc mad : ℝ) (acc : List Segment) :
    filter_go c mdc mad acc [] = acc := rfl

theorem filter_go_cons (c : Center) (mdc mad : ℝ) (acc : List Segment)
    (l : Segment) (rest : List Segment) :
    filter_go c mdc mad acc (l :: rest) =
      if 2 ≤ (process_line c mdc mad acc l).length then process_line c mdc mad acc l
      else filter_go c mdc mad (process_line c mdc mad acc l) rest := rfl

theorem process_line_length_le (c : Center) (mdc mad : ℝ) (acc : List Segment)
    (l : Segment) : (process_line c mdc mad acc l).length ≤ acc.length + 1 := by
  unfold process_line
  split_ifs <;> simp

theorem mem_process_line (c : Center) (mdc mad : ℝ) (acc : List Segment)
    (l x : Segment) (hx : x ∈ process_line c mdc mad acc l) :
    x ∈ acc ∨ (x = l ∧ near_center c mdc l ∧ ¬ too_close c mad mdc acc l) := by
  unfold process_line at hx
  split_ifs at hx with h1 h2
  · exact Or.inl hx
  · rcases List.mem_append.mp hx with h | h
    · exact Or.inl h
    · exact Or.inr ⟨List.mem_singleton.mp h, h1, h2⟩
  · exact Or.inl hx

theorem filter_go_mem_near (c : Center) (mdc mad : ℝ) :
    ∀ (lines acc : List Segment), (∀ x ∈ acc, near_center c mdc x) →
      ∀ l ∈ filter_go c mdc mad acc lines, near_center c mdc l := by
  intro lines
  induction lines with
  | nil =>
    intro acc hacc l hl
    rw [filter_go_nil] at hl
    exact hacc l hl
  | cons hd tl ih =>
    intro acc hacc l hl
    rw [filter_go_cons] at hl
    have hstep : ∀ x ∈ process_line c mdc mad acc hd, near_center c mdc x := by
      intro x hx
      rcases mem_process_line c mdc mad acc hd x hx with h | ⟨rfl, hn, _⟩
      · exact hacc x h
      · exact hn
    by_cases h2 : 2 ≤ (process_line c mdc mad acc hd).length
    · rw [if_pos h2] at hl
      exact hstep l hl
    · rw [if_neg h2] at hl
      exact ih _ hstep l hl

theorem filter_go_length_le (c : Center) (mdc mad : ℝ) :
    ∀ (lines acc : List Segment), acc.length ≤ 1 →
      (filter_go c mdc mad acc lines).length ≤ 2 := by
  intro lines
  induction lines with
  | nil =>
    intro acc hacc
    rw [filter_go_nil]
    omega
  | cons hd tl ih =>
    intro acc hacc
    rw [filter_go_cons]
    have hle := process_line_length_le c mdc mad acc hd
    by_cases h2 : 2 ≤ (process_line c mdc mad acc hd).length
    · rw [if_pos h2]
      omega
    · rw [if_neg h2]
      exact ih _ (by omega)

theorem filter_go_stop (c : Center) (mdc mad : ℝ) :
    ∀ (lines acc : List Segment), acc.length ≤ 1 →
      2 ≤ (filter_go c mdc mad acc lines).length →
      ∀ more : List Segment,
        filter_go c mdc mad acc (lines ++ more) = filter_go c mdc mad acc lines := by
  intro lines
  induction lines with
  | nil =>
    intro acc hacc h2 more
    rw [filter_go_nil] at h2
    omega
  | cons hd tl ih =>
    intro acc hacc h2 more
    rw [filter_go_cons] at h2
    rw [List.cons_append, filter_go_cons, filter_go_cons]
    by_cases hb : 2 ≤ (process_line c mdc mad acc hd).length
    · simp only [if_pos hb]
    · simp only [if_neg hb] at h2 ⊢
      have hle := process_line_length_le c mdc mad acc hd
      exact ih _ (by omega) h2 more

/-- C7: every segment selected by `filter_lines_by_center` has at least one
endpoint strictly within `max_distance_from_center` of the center; a segment
with both endpoints farther away is never selected. -/
theorem c7_selected_near_center (lines : List Segment) (c : Center) (mdc mad : ℝ)
    (l : Segment) (hl : l ∈ filter_lines_by_center lines c mdc mad) :
    hypot (l.x1 - c.1) (l.y1 - c.2) < mdc ∨ hypot (l.x2 - c.1) (l.y2 - c.2) < mdc :=
  filter_go_mem_near c mdc mad lines [] (by simp) l hl

/-- C8: the output of `filter_lines_by_center` has at most two elements, and
as soon as two candidates are selected the scan stops: input appended after
that point never changes the result. -/
theorem c8_filter_caps_at_two (lines more : List Segment) (c : Center) (mdc mad : ℝ) :
    (filter_lines_by_center lines c mdc mad).length ≤ 2 ∧
    (2 ≤ (filter_lines_by_center lines c mdc mad).length →
      filter_lines_by_center (lines ++ more) c mdc mad =
        filter_lines_by_center lines c mdc mad) :=
  ⟨filter_go_length_le c mdc mad lines [] (by simp),
    fun h2 => filter_go_stop c mdc mad lines [] (by simp) h2 more⟩

/-! ### Pairwise separation of the selected candidates -/

theorem angle_diff_comm (a b : ℝ) : angle_diff a b = angle_diff b a := by
  unfold angle_diff
  rw [abs_sub_comm]

theorem min_avg_dist_comm (l ch : Segment) : min_avg_dist l ch = min_avg_dist ch l := by
  have e : ∀ a b x y : ℝ, hypot (a - b) (x - y) = hypot (b - a) (y - x) := by
    intro a b x y
    rw [← neg_sub b a, ← neg_sub y x, hypot_neg_neg]
  unfold min_avg_dist
  rw [e l.x1 ch.x1 l.y1 ch.y1, e l.x2 ch.x2 l.y2 ch.y2, e l.x1 ch.x2 l.y1 ch.y2,
    e l.x2 ch.x1 l.y2 ch.y1,
    add_comm (hypot (ch.x2 - l.x1) (ch.y2 - l.y1)) (hypot (ch.x1 - l.x2) (ch.y1 - l.y2))]

theorem process_line_pairwise (c : Center) (mdc mad : ℝ) (acc : List Segment)
    (l : Segment)
    (hacc : acc.Pairwise (fun x y => ¬ too_close_pair c mad mdc y x)) :
    (process_line c mdc mad acc l).Pairwise (fun x y => ¬ too_close_pair c mad mdc y x) := by
  unfold process_line
  split_ifs with h1 h2
  · exact hacc
  · rw [List.pairwise_append]
    refine ⟨hacc, List.pairwise_singleton _ _, ?_⟩
    intro x hx y hy
    rw [List.mem_singleton] at hy
    subst hy
    intro hpair
    exact h2 ⟨x, hx, hpair⟩
  · exact hacc

theorem filter_go_pairwise (c : Center) (mdc mad : ℝ) :
    ∀ (lines acc : List Segment),
      acc.Pairwise (fun x y => ¬ too_close_pair c mad mdc y x) →
      (filter_go c mdc mad acc lines).Pairwise
        (fun x y => ¬ too_close_pair c mad mdc y x) := by
  intro lines
  induction lines with
  | nil =>
    intro acc hacc
    rw [filter_go_nil]
    exact hacc
  | cons hd tl ih =>
    intro acc hacc
    rw [filter_go_cons]
    have hstep := process_line_pairwise c mdc mad acc hd hacc
    by_cases h2 : 2 ≤ (process_line c mdc mad acc hd).length
    · rw [if_pos h2]
      exact hstep
    · rw [if_neg h2]
      exact ih _ hstep

/-- C10: whenever `filter_lines_by_center` returns two segments, they are
mutually separated: their far-endpoint angular difference (wrapped to
`[0, 180]`) is at least `min_angle_difference`, and the minimum over both
endpoint pairings of the average endpoint-to-endpoint distance is at least
`max_distance_from_center`. -/
theorem c10_selected_mutually_separated (lines : List Segment) (c : Center)
    (mdc mad : ℝ) (a b : Segment)
    (hfl : filter_lines_by_center lines c mdc mad = [a, b]) :
    mad ≤ angle_diff (get_line_angle c a) (get_line_angle c b) ∧
    mad ≤ angle_diff (get_line_angle c b) (get_line_angle c a) ∧
    mdc ≤ min_avg_dist a b ∧
    mdc ≤ min_avg_dist b a := by
  have hpw := filter_go_pairwise c mdc mad lines [] List.Pairwise.nil
  rw [show filter_go c mdc mad [] lines = filter_lines_by_center lines c mdc mad
      from rfl, hfl] at hpw
  have hab : ¬ too_close_pair c mad mdc b a := by
    rcases List.pairwise_cons.mp hpw with ⟨hfst, _⟩
    exact hfst b (List.mem_singleton.mpr rfl)
  rw [too_close_pair, not_or, not_lt, not_lt] at hab
  refine ⟨?_, hab.1, ?_, hab.2⟩
  · rw [angle_diff_comm]
    exact hab.1
  · rw [min_avg_dist_comm]
    exact hab.2

/-! ### Concrete evaluations on the witness segments -/

theorem near_seg1 : near_center ((0:ℝ), (0:ℝ)) 30 seg1 := by
  refine Or.inl ?_
  rw [show hypot (seg1.x1 - ((0:ℝ), (0:ℝ)).1) (seg1.y1 - ((0:ℝ), (0:ℝ)).2) = 0 from
    hypot_eval _ _ 0 le_rfl (by norm_num [seg1])]
  norm_num

theorem near_seg2 : near_center ((0:ℝ), (0:ℝ)) 30 seg2 := by
  refine Or.inl ?_
  rw [show hypot (seg2.x1 - ((0:ℝ), (0:ℝ)).1) (seg2.y1 - ((0:ℝ), (0:ℝ)).2) = 0 from
    hypot_eval _ _ 0 le_rfl (by norm_num [seg2])]
  norm_num

theorem near_seg3 : near_center ((0:ℝ), (0:ℝ)) 30 seg3 := by
  refine Or.inl ?_
  rw [show hypot (seg3.x1 - ((0:ℝ), (0:ℝ)).1) (seg3.y1 - ((0:ℝ), (0:ℝ)).2) = 0 from
    hypot_eval _ _ 0 le_rfl (by norm_num [seg3])]
  norm_num

theorem angle_seg1 : get_line_angle ((0:ℝ), (0:ℝ)) seg1 = 0 := by
  rw [get_line_angle_eq, calculate_line_angle_far seg1 ((0:ℝ), (0:ℝ))
      (by
        rw [show hypot (seg1.x1 - ((0:ℝ), (0:ℝ)).1) (seg1.y1 - ((0:ℝ), (0:ℝ)).2) = 0 from
            hypot_eval _ _ 0 le_rfl (by norm_num [seg1]),
          show hypot (seg1.x2 - ((0:ℝ), (0:ℝ)).1) (seg1.y2 - ((0:ℝ), (0:ℝ)).2) = 100 from
            hypot_eval _ _ 100 (by norm_num) (by norm_num [seg1])]
        norm_num)]
  rw [show seg1.x2 - ((0:ℝ), (0:ℝ)).1 = 0 by norm_num [seg1],
    show ((0:ℝ), (0:ℝ)).2 - seg1.y2 = 100 by norm_num [seg1]]
  exact angle_wrap_up (by norm_num)

theorem angle_seg2 : get_line_angle ((0:ℝ), (0:ℝ)) seg2 = 90 := by
  rw [get_line_angle_eq, calculate_line_angle_far seg2 ((0:ℝ), (0:ℝ))
      (by
        rw [show hypot (seg2.x1 - ((0:ℝ), (0:ℝ)).1) (seg2.y1 - ((0:ℝ), (0:ℝ)).2) = 0 from
            hypot_eval _ _ 0 le_rfl (by norm_num [seg2]),
          show hypot (seg2.x2 - ((0:ℝ), (0:ℝ)).1) (seg2.y2 - ((0:ℝ), (0:ℝ)).2) = 50 from
            hypot_eval _ _ 50 (by norm_num) (by norm_num [seg2])]
        norm_num)]
  rw [show seg2.x2 - ((0:ℝ), (0:ℝ)).1 = 50 by norm_num [seg2],
    show ((0:ℝ), (0:ℝ)).2 - seg2.y2 = 0 by norm_num [seg2]]
  exact angle_wrap_right (by norm_num)

theorem angle_seg3 : get_line_angle ((0:ℝ), (0:ℝ)) seg3 = 0 := by
  rw [get_line_angle_eq, calculate_line_angle_far seg3 ((0:ℝ), (0:ℝ))
      (by
        rw [show hypot (seg3.x1 - ((0:ℝ), (0:ℝ)).1) (seg3.y1 - ((0:ℝ), (0:ℝ)).2) = 0 from
            hypot_eval _ _ 0 le_rfl (by norm_num [seg3]),
          show hypot (seg3.x2 - ((0:ℝ), (0:ℝ)).1) (seg3.y2 - ((0:ℝ), (0:ℝ)).2) = 50 from
            hypot_eval _ _ 50 (by norm_num) (by norm_num [seg3])]
        norm_num)]
  rw [show seg3.x2 - ((0:ℝ), (0:ℝ)).1 = 0 by norm_num [seg3],
    show ((0:ℝ), (0:ℝ)).2 - seg3.y2 = 50 by norm_num [seg3]]
  exact angle_wrap_up (by norm_num)

theorem len_seg1 : line_length seg1 = 100 := by
  show hypot (seg1.x2 - seg1.x1) (seg1.y2 - seg1.y1) = 100
  exact hypot_eval _ _ 100 (by norm_num) (by norm_num [seg1])

theorem len_seg2 : line_length seg2 = 50 := by
  show hypot (seg2.x2 - seg2.x1) (seg2.y2 - seg2.y1) = 50
  exact hypot_eval _ _ 50 (by norm_num) (by norm_num [seg2])

theorem mad_seg2_seg1 : (30:ℝ) ≤ min_avg_dist seg2 seg1 := by
  have h1 : hypot (seg2.x1 - seg1.x1) (seg2.y1 - seg1.y1) = 0 :=
    hypot_eval _ _ 0 le_rfl (by norm_num [seg1, seg2])
  have h2 : hypot (seg2.x2 - seg1.x2) (seg2.y2 - seg1.y2) = Real.sqrt 12500 := by
    unfold hypot
    norm_num [seg1, seg2]
  have h3 : hypot (seg2.x1 - seg1.x2) (seg2.y1 - seg1.y2) = 100 :=
    hypot_eval _ _ 100 (by norm_num) (by norm_num [seg1, seg2])
  have h4 : hypot (seg2.x2 - seg1.x1) (seg2.y2 - seg1.y1) = 50 :=
    hypot_eval _ _ 50 (by norm_num) (by norm_num [seg1, seg2])
  have h60 : (60:ℝ) ≤ Real.sqrt 12500 := by
    have h3600 : Real.sqrt 3600 = 60 := by
      rw [show (3600:ℝ) = 60 ^ 2 by norm_num, Real.sqrt_sq (by norm_num : (0:ℝ) ≤ 60)]
    calc (60:ℝ) = Real.sqrt 3600 := h3600.symm
      _ ≤ Real.sqrt 12500 := Real.sqrt_le_sqrt (by norm_num)
  unfold min_avg_dist
  rw [h1, h2, h3, h4]
  refine le_min (by linarith) (by norm_num)

theorem not_too_close_seg2_seg1 :
    ¬ too_close ((0:ℝ), (0:ℝ)) 15 30 [seg1] seg2 := by
  rintro ⟨ch, hch, hpair⟩
  rw [List.mem_singleton] at hch
  subst hch
  rcases hpair with ha | hd
  · rw [angle_seg2, angle_seg1] at ha
    unfold angle_diff at ha
    have habs : |(90:ℝ) - 0| = 90 := by
      rw [show (90:ℝ) - 0 = 90 by norm_num]
      exact abs_of_nonneg (by norm_num)
    rw [habs, min_eq_left (by norm_num : (90:ℝ) ≤ 360 - 90)] at ha
    norm_num at ha
  · exact absurd hd (not_lt.mpr mad_seg2_seg1)

/-! ### Concrete runs of the selection filter -/

theorem process_seg1_empty :
    process_line ((0:ℝ), (0:ℝ)) 30 15 [] seg1 = [seg1] := by
  unfold process_line
  rw [if_pos near_seg1, if_neg (by rintro ⟨ch, hch, _⟩; exact absurd hch (List.not_mem_nil ch))]
  rfl

theorem filter_single_eval :
    filter_lines_by_center [seg1] ((0:ℝ), (0:ℝ)) 30 15 = [seg1] := by
  unfold filter_lines_by_center
  rw [filter_go_cons, process_seg1_empty, if_neg (by simp), filter_go_nil]

theorem filter_pair_eval :
    filter_lines_by_center [seg1, seg2] ((0:ℝ), (0:ℝ)) 30 15 = [seg1, seg2] := by
  unfold filter_lines_by_center
  rw [filter_go_cons, process_seg1_empty, if_neg (by simp), filter_go_cons]
  have hp2 : process_line ((0:ℝ), (0:ℝ)) 30 15 [seg1] seg2 = [seg1, seg2] := by
    unfold process_line
    rw [if_pos near_seg2, if_neg not_too_close_seg2_seg1]
    rfl
  rw [hp2, if_pos (by simp)]

/-- C6: two near-center segments at wrapped angular separation below
`min_angle_difference` collapse to the first-encountered one; and in general
an admitted (near-center) candidate is rejected by the loop body exactly
when it is too close — angularly or spatially — to some already-selected
segment. -/
theorem c6_first_of_close_pair (s1 s2 : Segment) (c : Center) (mdc mad : ℝ)
    (h1 : near_center c mdc s1) (h2 : near_center c mdc s2)
    (hang : angle_diff (get_line_angle c s2) (get_line_angle c s1) < mad) :
    filter_lines_by_center [s1, s2] c mdc mad = [s1] ∧
    ∀ (chosen : List Segment) (l : Segment), near_center c mdc l →
      (process_line c mdc mad chosen l = chosen ↔ too_close c mad mdc chosen l) := by
  constructor
  · unfold filter_lines_by_center
    have hp1 : process_line c mdc mad [] s1 = [s1] := by
      unfold process_line
      rw [if_pos h1,
        if_neg (by rintro ⟨ch, hch, _⟩; exact absurd hch (List.not_mem_nil ch))]
      rfl
    have hp2 : process_line c mdc mad [s1] s2 = [s1] := by
      unfold process_line
      rw [if_pos h2, if_pos ⟨s1, List.mem_singleton.mpr rfl, Or.inl hang⟩]
    rw [filter_go_cons, hp1, if_neg (by simp), filter_go_cons, hp2,
      if_neg (by simp), filter_go_nil]
  · intro chosen l hn
    constructor
    · intro heq
      by_contra htc
      unfold process_line at heq
      rw [if_pos hn, if_neg htc] at heq
      have := congrArg List.length heq
      simp at this
    · intro htc
      unfold process_line
      rw [if_pos hn, if_pos htc]

/-- C6 witness: `seg1` and `seg3` both point straight up (angles 0 and 0,
separation 0 < 15) and both pass through the center; the filter keeps only
the first-encountered `seg1`. -/
theorem c6_witness :
    near_center ((0:ℝ), (0:ℝ)) 30 seg1 ∧ near_center ((0:ℝ), (0:ℝ)) 30 seg3 ∧
    angle_diff (get_line_angle ((0:ℝ), (0:ℝ)) seg3) (get_line_angle ((0:ℝ), (0:ℝ)) seg1)
      < 15 ∧
    filter_lines_by_center [seg1, seg3] ((0:ℝ), (0:ℝ)) 30 15 = [seg1] := by
  have hang : angle_diff (get_line_angle ((0:ℝ), (0:ℝ)) seg3)
      (get_line_angle ((0:ℝ), (0:ℝ)) seg1) < 15 := by
    rw [angle_seg3, angle_seg1]
    unfold angle_diff
    have habs : |(0:ℝ) - 0| = 0 := by norm_num
    rw [habs, min_eq_left (by norm_num : (0:ℝ) ≤ 360 - 0)]
    norm_num
  exact ⟨near_seg1, near_seg3, hang,
    (c6_first_of_close_pair seg1 seg3 ((0:ℝ), (0:ℝ)) 30 15 near_seg1 near_seg3 hang).1⟩

/-! ### Unfolding lemmas for `identify_hour_and_minute_hands` -/

theorem identify_def (lines : List Segment) (c : Center) :
    identify_hour_and_minute_hands lines c =
      (if (filter_lines_by_center lines c 30 15).isEmpty then none
       else
        match List.insertionSort (fun p q : Segment × ℝ => q.2 ≤ p.2)
            (calculate_lines_length (filter_lines_by_center lines c 30 15)) with
        | [] => none
        | [m] => some (m.1, m.1)
        | m0 :: m1 :: _ => some (m1.1, m0.1)) := rfl

theorem insertionSort_single {α : Type} (r : α → α → Prop) [DecidableRel r] (x : α) :
    List.insertionSort r [x] = [x] := rfl

theorem insertionSort_pair {α : Type} (r : α → α → Prop) [DecidableRel r] (x y : α) :
    List.insertionSort r [x, y] = if r x y then [x, y] else [y, x] := by
  simp only [List.insertionSort, List.orderedInsert]

/-- C5: `identify_hour_and_minute_hands` returns no pair exactly when the
filter retains zero candidates, and a single retained candidate is returned
duplicated as both hour and minute hand. -/
theorem c5_identify_none_iff_empty (lines : List Segment) (c : Center) :
    (identify_hour_and_minute_hands lines c = none ↔
      filter_lines_by_center lines c 30 15 = []) ∧
    ∀ s : Segment, filter_lines_by_center lines c 30 15 = [s] →
      identify_hour_and_minute_hands lines c = some (s, s) := by
  constructor
  · constructor
    · intro hnone
      by_contra hne
      obtain ⟨hd, tl, hcons⟩ : ∃ hd tl, filter_lines_by_center lines c 30 15 = hd :: tl := by
        cases h : filter_lines_by_center lines c 30 15 with
        | nil => exact absurd h hne
        | cons hd tl => exact ⟨hd, tl, rfl⟩
      rw [identify_def, hcons, if_neg (by simp)] at hnone
      have hlen : (List.insertionSort (fun p q : Segment × ℝ => q.2 ≤ p.2)
          (calculate_lines_length (hd :: tl))).length = tl.length + 1 := by
        rw [List.length_insertionSort]
        simp [calculate_lines_length]
      cases hs : List.insertionSort (fun p q : Segment × ℝ => q.2 ≤ p.2)
          (calculate_lines_length (hd :: tl)) with
      | nil =>
        rw [hs] at hlen
        simp at hlen
      | cons m ms =>
        rw [hs] at hnone
        cases ms with
        | nil => simp at hnone
        | cons m1 ms1 => simp at hnone
    · intro hempty
      rw [identify_def, hempty]
      rfl
  · intro s hsingle
    rw [identify_def, hsingle, if_neg (by simp),
      show calculate_lines_length [s] = [(s, line_length s)] from by
        simp [calculate_lines_length],
      insertionSort_single]

/-- C5 witness: a single near-center candidate is duplicated into both
hands. -/
theorem c5_witness :
    filter_lines_by_center [seg1] ((0:ℝ), (0:ℝ)) 30 15 = [seg1] ∧
    identify_hour_and_minute_hands [seg1] ((0:ℝ), (0:ℝ)) = some (seg1, seg1) :=
  ⟨filter_single_eval,
    (c5_identify_none_iff_empty [seg1] ((0:ℝ), (0:ℝ))).2 seg1 filter_single_eval⟩

/-- C4: when the filter retains two candidates, the longer one (the first on
ties) becomes the minute hand and the other the hour hand, so the returned
pair always satisfies hour-hand length ≤ minute-hand length and the minute
hand is longest among the retained candidates. -/
theorem c4_classify_orders_by_length (lines : List Segment) (c : Center) (a b : Segment)
    (hfl : filter_lines_by_center lines c 30 15 = [a, b]) :
    (if line_length b ≤ line_length a
      then identify_hour_and_minute_hands lines c = some (b, a)
      else identify_hour_and_minute_hands lines c = some (a, b)) ∧
    ∀ p : Segment × Segment, identify_hour_and_minute_hands lines c = some p →
      line_length p.1 ≤ line_length p.2 ∧
      ∀ l ∈ filter_lines_by_center lines c 30 15, line_length l ≤ line_length p.2 := by
  have hid : identify_hour_and_minute_hands lines c =
      if line_length b ≤ line_length a then some (b, a) else some (a, b) := by
    rw [identify_def, hfl, if_neg (by simp),
      show calculate_lines_length [a, b] = [(a, line_length a), (b, line_length b)]
        from by simp [calculate_lines_length],
      insertionSort_pair]
    by_cases hle : line_length b ≤ line_length a
    · rw [if_pos (show ((b, line_length b).2 : ℝ) ≤ (a, line_length a).2 from hle),
        if_pos hle]
    · rw [if_neg (show ¬ (((b, line_length b).2 : ℝ) ≤ (a, line_length a).2) from hle),
        if_neg hle]
  constructor
  · by_cases hle : line_length b ≤ line_length a
    · rw [if_pos hle, hid, if_pos hle]
    · rw [if_neg hle, hid, if_neg hle]
  · intro p hp
    rw [hid] at hp
    by_cases hle : line_length b ≤ line_length a
    · rw [if_pos hle] at hp
      obtain rfl : (b, a) = p := Option.some.inj hp
      refine ⟨hle, ?_⟩
      intro l hl
      rw [hfl] at hl
      rcases List.mem_cons.mp hl with rfl | hl2
      · exact le_refl _
      · rw [List.mem_singleton] at hl2
        subst hl2
        exact hle
    · rw [if_neg hle] at hp
      obtain rfl : (a, b) = p := Option.some.inj hp
      have hab : line_length a ≤ line_length b := le_of_not_le hle
      refine ⟨hab, ?_⟩
      intro l hl
      rw [hfl] at hl
      rcases List.mem_cons.mp hl with rfl | hl2
      · exact hab
      · rw [List.mem_singleton] at hl2
        subst hl2
        exact le_refl _

/-- C4 witness: from the retained pair `[seg1, seg2]` (lengths 100 and 50),
`seg1` becomes the minute hand and `seg2` the hour hand. -/
theorem c4_witness :
    filter_lines_by_center [seg1, seg2] ((0:ℝ), (0:ℝ)) 30 15 = [seg1, seg2] ∧
    line_length seg2 ≤ line_length seg1 ∧
    identify_hour_and_minute_hands [seg1, seg2] ((0:ℝ), (0:ℝ)) = some (seg2, seg1) := by
  have hle : line_length seg2 ≤ line_length seg1 := by
    rw [len_seg1, len_seg2]
    norm_num
  have h := (c4_classify_orders_by_length [seg1, seg2] ((0:ℝ), (0:ℝ)) seg1 seg2
    filter_pair_eval).1
  rw [if_pos hle] at h
  exact ⟨filter_pair_eval, hle, h⟩

/-- C7 witness: `seg1` is selected from `[seg1]` and indeed has an endpoint
within distance 30 of the center. -/
theorem c7_witness :
    seg1 ∈ filter_lines_by_center [seg1] ((0:ℝ), (0:ℝ)) 30 15 ∧
    (hypot (seg1.x1 - ((0:ℝ), (0:ℝ)).1) (seg1.y1 - ((0:ℝ), (0:ℝ)).2) < 30 ∨
      hypot (seg1.x2 - ((0:ℝ), (0:ℝ)).1) (seg1.y2 - ((0:ℝ), (0:ℝ)).2) < 30) := by
  have hm : seg1 ∈ filter_lines_by_center [seg1] ((0:ℝ), (0:ℝ)) 30 15 := by
    rw [filter_single_eval]
    exact List.mem_singleton.mpr rfl
  exact ⟨hm, c7_selected_near_center [seg1] ((0:ℝ), (0:ℝ)) 30 15 seg1 hm⟩

/-- C8 witness: `[seg1, seg2]` already yields two candidates, and appending
`seg3` to the input changes nothing. -/
theorem c8_witness :
    2 ≤ (filter_lines_by_center [seg1, seg2] ((0:ℝ), (0:ℝ)) 30 15).length ∧
    (filter_lines_by_center [seg1, seg2] ((0:ℝ), (0:ℝ)) 30 15).length ≤ 2 ∧
    filter_lines_by_center ([seg1, seg2] ++ [seg3]) ((0:ℝ), (0:ℝ)) 30 15 =
      filter_lines_by_center [seg1, seg2] ((0:ℝ), (0:ℝ)) 30 15 := by
  have h2 : 2 ≤ (filter_lines_by_center [seg1, seg2] ((0:ℝ), (0:ℝ)) 30 15).length := by
    rw [filter_pair_eval]
    simp
  have h := c8_filter_caps_at_two [seg1, seg2] [seg3] ((0:ℝ), (0:ℝ)) 30 15
  exact ⟨h2, h.1, h.2 h2⟩

/-- C10 witness: the two selected segments `seg1`, `seg2` are mutually
separated as required. -/
theorem c10_witness :
    filter_lines_by_center [seg1, seg2] ((0:ℝ), (0:ℝ)) 30 15 = [seg1, seg2] ∧
    (15:ℝ) ≤ angle_diff (get_line_angle ((0:ℝ), (0:ℝ)) seg1)
      (get_line_angle ((0:ℝ), (0:ℝ)) seg2) ∧
    (30:ℝ) ≤ min_avg_dist seg1 seg2 := by
  have h := c10_selected_mutually_separated [seg1, seg2] ((0:ℝ), (0:ℝ)) 30 15 seg1 seg2
    filter_pair_eval
  exact ⟨filter_pair_eval, h.1, h.2.2.1⟩

/-! ### Claim C3: pipeline orchestration -/

/-- C3 as amended: a null/empty collaborator result at any checked stage
makes `read_clock_time` return immediately — no later stage runs, no
retries, no partial result is forwarded — but the returned failure value is
the untyped `None` (the same for every stage; the stage is named only in a
log message), and a failed image load in preprocessing propagates as an
exception rather than as a returned failure. -/
theorem c3_pipeline_fail_fast {Img : Type} (env : PipelineEnv Img) :
    (∀ e, env.preprocessed = .error e →
      read_clock_time env = (.error e, [Stage.preprocessing])) ∧
    (∀ (orig : Img) (gOpt bOpt : Option Img),
      env.preprocessed = .ok (orig, gOpt, bOpt) → gOpt = none ∨ bOpt = none →
      read_clock_time env = (.ok none, [Stage.preprocessing])) ∧
    (∀ (orig g b : Img), env.preprocessed = .ok (orig, some g, some b) →
      env.canny b = none →
      read_clock_time env = (.ok none, [Stage.preprocessing, Stage.edgeDetection])) ∧
    (∀ (orig g b edges : Img), env.preprocessed = .ok (orig, some g, some b) →
      env.canny b = some edges → env.detectClockCircle g = none →
      read_clock_time env =
        (.ok none, [Stage.preprocessing, Stage.edgeDetection, Stage.faceDetection])) ∧
    (∀ (orig g b edges : Img) (clock : (ℝ × ℝ) × ℝ),
      env.preprocessed = .ok (orig, some g, some b) →
      env.canny b = some edges → env.detectClockCircle g = some clock →
      env.detectCenterBlob g clock = none →
      read_clock_time env =
        (.ok none, [Stage.preprocessing, Stage.edgeDetection, Stage.faceDetection,
          Stage.centerRefinement])) ∧
    (∀ (orig g b edges : Img) (clock : (ℝ × ℝ) × ℝ) (refinedClock : ℝ × ℝ × ℝ)
      (blobImg : Img),
      env.preprocessed = .ok (orig, some g, some b) →
      env.canny b = some edges → env.detectClockCircle g = some clock →
      env.detectCenterBlob g clock = some (refinedClock, blobImg) →
      env.detectLinesHough edges = none ∨ env.detectLinesHough edges = some [] →
      read_clock_time env =
        (.ok none, [Stage.preprocessing, Stage.edgeDetection, Stage.faceDetection,
          Stage.centerRefinement, Stage.lineDetection])) ∧
    (∀ (orig g b edges : Img) (clock : (ℝ × ℝ) × ℝ) (refinedClock : ℝ × ℝ × ℝ)
      (blobImg : Img) (l0 : Segment) (ls : List Segment),
      env.preprocessed = .ok (orig, some g, some b) →
      env.canny b = some edges → env.detectClockCircle g = some clock →
      env.detectCenterBlob g clock = some (refinedClock, blobImg) →
      env.detectLinesHough edges = some (l0 :: ls) →
      identify_hour_and_minute_hands (l0 :: ls)
        ((pyint refinedClock.1 : ℝ), (pyint refinedClock.2.1 : ℝ)) = none →
      read_clock_time env =
        (.ok none, [Stage.preprocessing, Stage.edgeDetection, Stage.faceDetection,
          Stage.centerRefinement, Stage.lineDetection, Stage.handIdentification])) := by
  refine ⟨?_, ?_, ?_, ?_, ?_, ?_, ?_⟩
  · intro e he
    simp [read_clock_time, he]
  · intro orig gOpt bOpt hpre hor
    rcases hor with rfl | rfl
    · simp [read_clock_time, hpre]
    · cases gOpt with
      | none => simp [read_clock_time, hpre]
      | some g => simp [read_clock_time, hpre]
  · intro orig g b hpre hcanny
    simp [read_clock_time, hpre, hcanny]
  · intro orig g b edges hpre hcanny hcirc
    simp [read_clock_time, hpre, hcanny, hcirc]
  · intro orig g b edges clock hpre hcanny hcirc hblob
    simp [read_clock_time, hpre, hcanny, hcirc, hblob]
  · intro orig g b edges clock refinedClock blobImg hpre hcanny hcirc hblob hlines
    rcases hlines with hlines | hlines
    · simp [read_clock_time, hpre, hcanny, hcirc, hblob, hlines]
    · simp [read_clock_time, hpre, hcanny, hcirc, hblob, hlines]
  · intro orig g b edges clock refinedClock blobImg l0 ls hpre hcanny hcirc hblob
      hlines hid
    simp [read_clock_time, hpre, hcanny, hcirc, hblob, hlines, hid]

/-- C3 counterexample: a failed image load at the preprocessing stage is
surfaced as a propagated exception, not a returned failure value; and two
runs failing at different stages (edge detection vs face detection) return
the same value `None`, so the returned result does not identify the failing
stage. -/
theorem c3_counterexample :
    read_clock_time envCrash =
      (.error "FileNotFoundError: Image not found at clock_2.jpg",
        [Stage.preprocessing]) ∧
    (read_clock_time envEdgeFail).1 = .ok none ∧
    (read_clock_time envFaceFail).1 = .ok none ∧
    (read_clock_time envEdgeFail).2 ≠ (read_clock_time envFaceFail).2 := by
  refine ⟨rfl, rfl, rfl, ?_⟩
  have h1 : (read_clock_time envEdgeFail).2 =
      [Stage.preprocessing, Stage.edgeDetection] := rfl
  have h2 : (read_clock_time envFaceFail).2 =
      [Stage.preprocessing, Stage.edgeDetection, Stage.faceDetection] := rfl
  rw [h1, h2]
  simp

/-- C3 witness: the amended behaviour on two concrete environments — the
crashing image load and a null edge-detection result. -/
theorem c3_witness :
    envCrash.preprocessed =
      Except.error "FileNotFoundError: Image not found at clock_2.jpg" ∧
    read_clock_time envCrash =
      (.error "FileNotFoundError: Image not found at clock_2.jpg",
        [Stage.preprocessing]) ∧
    envEdgeFail.canny 0 = none ∧
    read_clock_time envEdgeFail =
      (.ok none, [Stage.preprocessing, Stage.edgeDetection]) := by
  refine ⟨rfl, (c3_pipeline_fail_fast envCrash).1 _ rfl, rfl, ?_⟩
  exact (c3_pipeline_fail_fast envEdgeFail).2.2.1 0 0 0 rfl rfl

end

end Clock
